import Mathlib

set_option maxHeartbeats 1000000

/-!
Verification development for the debug-introspection bridge of the `ark`
repository.  The C sources embedded here are:

* `src/crates/ark/src/debug.h` — the `SEXPTYPE` enumeration with its fixed,
  non-sequential discriminant values, and the `SEXP` handle type
  (`typedef struct SEXPREC *SEXP;`, a pointer to an incomplete struct).
* `src/crates/ark/src/debug.c` — the exported shim: `ark_print`,
  `ark_inspect` and `ark_display_value`, each a one-line forwarding call to
  the corresponding renderer function `ark_print_rs`, `ark_inspect_rs`,
  `ark_display_value_rs` declared extern in the same file.

The renderer implementation (`debug.rs`) is referenced by the C file but is
not among the sources; where a claim depends on renderer behaviour, the
renderer is modelled from the specification and each such definition is
marked `Modelled from the spec:` in its doc comment.
-/

namespace Ark

/-- The `SEXPTYPE` enumeration from `debug.h`: the closed set of type tags
of the foreign runtime.  One constructor per enumerator of the C `enum`. -/
inductive SEXPTYPE
  | NILSXP
  | SYMSXP
  | LISTSXP
  | CLOSXP
  | ENVSXP
  | PROMSXP
  | LANGSXP
  | SPECIALSXP
  | BUILTINSXP
  | CHARSXP
  | LGLSXP
  | INTSXP
  | REALSXP
  | CPLXSXP
  | STRSXP
  | DOTSXP
  | ANYSXP
  | VECSXP
  | EXPRSXP
  | BCODESXP
  | EXTPTRSXP
  | WEAKREFSXP
  | RAWSXP
  | OBJSXP
  | NEWSXP
  | FREESXP
  | FUNSXP
  deriving DecidableEq, Repr, Fintype

/-- The numeric discriminant each enumerator carries in `debug.h`
(the explicit `= n` value written in the C source). -/
def SEXPTYPE.toTag : SEXPTYPE → Nat
  | .NILSXP => 0
  | .SYMSXP => 1
  | .LISTSXP => 2
  | .CLOSXP => 3
  | .ENVSXP => 4
  | .PROMSXP => 5
  | .LANGSXP => 6
  | .SPECIALSXP => 7
  | .BUILTINSXP => 8
  | .CHARSXP => 9
  | .LGLSXP => 10
  | .INTSXP => 13
  | .REALSXP => 14
  | .CPLXSXP => 15
  | .STRSXP => 16
  | .DOTSXP => 17
  | .ANYSXP => 18
  | .VECSXP => 19
  | .EXPRSXP => 20
  | .BCODESXP => 21
  | .EXTPTRSXP => 22
  | .WEAKREFSXP => 23
  | .RAWSXP => 24
  | .OBJSXP => 25
  | .NEWSXP => 30
  | .FREESXP => 31
  | .FUNSXP => 99

/-- All enumerators of `SEXPTYPE`, in the order they appear in `debug.h`. -/
def allSEXPTYPEs : List SEXPTYPE :=
  [.NILSXP, .SYMSXP, .LISTSXP, .CLOSXP, .ENVSXP, .PROMSXP, .LANGSXP,
   .SPECIALSXP, .BUILTINSXP, .CHARSXP, .LGLSXP, .INTSXP, .REALSXP,
   .CPLXSXP, .STRSXP, .DOTSXP, .ANYSXP, .VECSXP, .EXPRSXP, .BCODESXP,
   .EXTPTRSXP, .WEAKREFSXP, .RAWSXP, .OBJSXP, .NEWSXP, .FREESXP, .FUNSXP]

/-- The C handle type `SEXP` (`typedef struct SEXPREC *SEXP;`): a raw
pointer value, with `none` standing for the null pointer and `some a` for a
non-null address `a`.  The struct behind it is incomplete in the C source,
so nothing in the shim can read through the pointer. -/
abbrev SEXP := Option Nat

/-- Abstract model of a C `const char*` return value (a buffer address). -/
abbrev CharPtr := Nat

/-- The three renderer entry points that `debug.c` declares extern
(`ark_print_rs`, `ark_inspect_rs`, `ark_display_value_rs`).  They are
implemented outside the C file, so the shim is parametric in them. -/
structure Renderer where
  ark_print_rs : SEXP → CharPtr
  ark_inspect_rs : SEXP → CharPtr
  ark_display_value_rs : SEXP → CharPtr

/-- `ark_print` from `debug.c`: `return ark_print_rs(x);`. -/
def ark_print (R : Renderer) (x : SEXP) : CharPtr :=
  R.ark_print_rs x

/-- `ark_inspect` from `debug.c`: `return ark_inspect_rs(x);`. -/
def ark_inspect (R : Renderer) (x : SEXP) : CharPtr :=
  R.ark_inspect_rs x

/-- `ark_display_value` from `debug.c`: `return ark_display_value_rs(x);`. -/
def ark_display_value (R : Renderer) (x : SEXP) : CharPtr :=
  R.ark_display_value_rs x

/-- The non-static (hence exported) function symbols defined in `debug.c`,
paired with the shim function each name refers to. -/
def shimExports : List (String × (Renderer → SEXP → CharPtr)) :=
  [("ark_print", ark_print),
   ("ark_inspect", ark_inspect),
   ("ark_display_value", ark_display_value)]

/-- The exported symbol names of the shim, read off `shimExports`. -/
def exportedSymbols : List String :=
  shimExports.map Prod.fst

/-- C parameter and return types appearing in the shim signatures. -/
inductive CType
  | SEXP_t
  | ConstCharPtr
  deriving DecidableEq, BEq, Repr

/-- Shape of a C function signature: parameter types, return type, and
whether the parameter list is variadic. -/
structure CSig where
  params : List CType
  ret : CType
  variadic : Bool
  deriving DecidableEq, BEq, Repr

/-- The signatures of the three exported shim functions, as written in
`debug.c`: each is `const char* f(SEXP x)` with no further parameters. -/
def shimSignatures : List (String × CSig) :=
  [("ark_print", ⟨[CType.SEXP_t], CType.ConstCharPtr, false⟩),
   ("ark_inspect", ⟨[CType.SEXP_t], CType.ConstCharPtr, false⟩),
   ("ark_display_value", ⟨[CType.SEXP_t], CType.ConstCharPtr, false⟩)]

/-- The three rendering modes the spec names: one per exported operation. -/
inductive Mode
  | print
  | inspect
  | display
  deriving DecidableEq, Repr

/-- Spelling of each mode, used by the modelled formatter so that the three
modes produce observably different text. -/
def modeLabel : Mode → String
  | .print => "print"
  | .inspect => "inspect"
  | .display => "display"

/-- Name of each tag, following the enumerator names of `debug.h`. -/
def SEXPTYPE.name : SEXPTYPE → String
  | .NILSXP => "NILSXP"
  | .SYMSXP => "SYMSXP"
  | .LISTSXP => "LISTSXP"
  | .CLOSXP => "CLOSXP"
  | .ENVSXP => "ENVSXP"
  | .PROMSXP => "PROMSXP"
  | .LANGSXP => "LANGSXP"
  | .SPECIALSXP => "SPECIALSXP"
  | .BUILTINSXP => "BUILTINSXP"
  | .CHARSXP => "CHARSXP"
  | .LGLSXP => "LGLSXP"
  | .INTSXP => "INTSXP"
  | .REALSXP => "REALSXP"
  | .CPLXSXP => "CPLXSXP"
  | .STRSXP => "STRSXP"
  | .DOTSXP => "DOTSXP"
  | .ANYSXP => "ANYSXP"
  | .VECSXP => "VECSXP"
  | .EXPRSXP => "EXPRSXP"
  | .BCODESXP => "BCODESXP"
  | .EXTPTRSXP => "EXTPTRSXP"
  | .WEAKREFSXP => "WEAKREFSXP"
  | .RAWSXP => "RAWSXP"
  | .OBJSXP => "OBJSXP"
  | .NEWSXP => "NEWSXP"
  | .FREESXP => "FREESXP"
  | .FUNSXP => "FUNSXP"

/-- Modelled from the spec: the foreign-runtime value a non-null handle can
point to.  `tag` is the read-only type tag of the handle; `payload` stands
for the value content a formatter would render; `malformed` marks a value
whose internal structure makes content formatting fail (spec section 4.2
step 4 and section 7). -/
structure RValue where
  tag : SEXPTYPE
  payload : String
  malformed : Bool
  deriving DecidableEq, Repr

/-- The heap of foreign-runtime values reachable through handles: an
address is either dangling (`none`) or holds a value. -/
abbrev Mem := Nat → Option RValue

/-- Reading through a handle: the null pointer and dangling addresses give
nothing; a live address gives the value stored there. -/
def deref (mem : Mem) : SEXP → Option RValue
  | none => none
  | some a => mem a

/-- The two GC-lifecycle markers of `debug.h` (`NEWSXP = 30`,
`FREESXP = 31`). -/
def isGCLifecycle : SEXPTYPE → Bool
  | .NEWSXP => true
  | .FREESXP => true
  | _ => false

/-- Modelled from the spec: the fixed invalid-handle diagnostic the
renderer returns for a null or dangling handle (spec section 7). -/
def invalidHandleDiag : String :=
  "<invalid handle>"

/-- Modelled from the spec: the diagnostic returned when a GC-lifecycle
tag is observed, indicating an unexpected transient state; it depends only
on the tag, never on value content (spec sections 4.2 and 7). -/
def gcTransientDiag (t : SEXPTYPE) : String :=
  "<unexpected transient tag " ++ t.name ++ ">"

/-- Modelled from the spec: the short diagnostic produced when content
formatting itself fails, instead of any failure signal (spec section 7). -/
def formatFailureDiag (e : String) : String :=
  "<error while formatting: " ++ e ++ ">"

/-- Modelled from the spec: the tag-specific formatter core shared by the
three modes, parameterised by the mode (spec section 4.2 step 3).  A
malformed value makes formatting fail with a local error, which the
renderer boundary converts to text. -/
def formatValue (m : Mode) (v : RValue) : Except String String :=
  if v.malformed then
    Except.error "malformed internal structure"
  else
    Except.ok (modeLabel m ++ " of " ++ v.tag.name ++ ": " ++ v.payload)

/-- Modelled from the spec: the renderer algorithm of section 4.2 for one
call — read through the handle (null or dangling gives the invalid-handle
diagnostic), divert GC-lifecycle tags to their diagnostic before any
content formatting, dispatch the remaining tags to the formatter, and turn
a formatting failure into a diagnostic string rather than a failure
signal. -/
def renderSpec (m : Mode) (mem : Mem) (x : SEXP) : String :=
  match deref mem x with
  | none => invalidHandleDiag
  | some v =>
    if isGCLifecycle v.tag then gcTransientDiag v.tag
    else
      match formatValue m v with
      | Except.ok s => s
      | Except.error e => formatFailureDiag e

/-- The global state a C call could read or write: the heap of values
reachable through handles, and all other global memory of the process. -/
structure CState where
  mem : Mem
  globals : Nat → Nat

/-- A renderer as seen from the shim when effects are made explicit: each
entry point takes the handle and the global state and returns the buffer
pointer plus the possibly-changed state. -/
structure EffRenderer where
  print_rs : SEXP → CState → CharPtr × CState
  inspect_rs : SEXP → CState → CharPtr × CState
  display_value_rs : SEXP → CState → CharPtr × CState

/-- `ark_print` from `debug.c` with effects made explicit: the body is the
single statement `return ark_print_rs(x);`. -/
def ark_print_eff (R : EffRenderer) (x : SEXP) (s : CState) : CharPtr × CState :=
  R.print_rs x s

/-- `ark_inspect` from `debug.c` with effects made explicit. -/
def ark_inspect_eff (R : EffRenderer) (x : SEXP) (s : CState) : CharPtr × CState :=
  R.inspect_rs x s

/-- `ark_display_value` from `debug.c` with effects made explicit. -/
def ark_display_value_eff (R : EffRenderer) (x : SEXP) (s : CState) : CharPtr × CState :=
  R.display_value_rs x s

/-- Modelled from the spec: `ark_print_rs`, the renderer entry point behind
`ark_print`.  It reads the value graph but writes no shared state (spec
section 5). -/
def ark_print_rs_model (x : SEXP) (s : CState) : String × CState :=
  (renderSpec Mode.print s.mem x, s)

/-- Modelled from the spec: `ark_inspect_rs`, the renderer entry point
behind `ark_inspect`. -/
def ark_inspect_rs_model (x : SEXP) (s : CState) : String × CState :=
  (renderSpec Mode.inspect s.mem x, s)

/-- Modelled from the spec: `ark_display_value_rs`, the renderer entry
point behind `ark_display_value`. -/
def ark_display_value_rs_model (x : SEXP) (s : CState) : String × CState :=
  (renderSpec Mode.display s.mem x, s)

/-- The full exported operation `ark_print` over the modelled renderer:
the shim body from `debug.c` applied to `ark_print_rs_model`. -/
def ark_print_model (x : SEXP) (s : CState) : String × CState :=
  ark_print_rs_model x s

/-- The full exported operation `ark_inspect` over the modelled renderer. -/
def ark_inspect_model (x : SEXP) (s : CState) : String × CState :=
  ark_inspect_rs_model x s

/-- The full exported operation `ark_display_value` over the modelled
renderer. -/
def ark_display_value_model (x : SEXP) (s : CState) : String × CState :=
  ark_display_value_rs_model x s

/-- A concrete renderer returning a fixed buffer, used as witness data. -/
def constRenderer : Renderer :=
  ⟨fun _ => 0, fun _ => 0, fun _ => 0⟩

/-- A concrete heap holding an ordinary nil value at every address. -/
def wMem : Mem :=
  fun _ => some ⟨SEXPTYPE.NILSXP, "NULL", false⟩

/-- A concrete global state over `wMem`. -/
def wState : CState :=
  ⟨wMem, fun _ => 0⟩

/-- A concrete heap holding a GC-lifecycle-tagged node at every address. -/
def wMemGC : Mem :=
  fun _ => some ⟨SEXPTYPE.NEWSXP, "junk", false⟩

/-- A concrete global state over `wMemGC`. -/
def wStateGC : CState :=
  ⟨wMemGC, fun _ => 0⟩

/-- A concrete global state whose heap is entirely dangling. -/
def wStateEmpty : CState :=
  ⟨fun _ => none, fun _ => 0⟩

theorem modeLabel_length_pos (m : Mode) : 0 < (modeLabel m).length := by
  cases m <;> decide

theorem renderSpec_valid_length_pos (m : Mode) (mem : Mem) (x : SEXP)
    (v : RValue) (h : deref mem x = some v) :
    0 < (renderSpec m mem x).length := by
  unfold renderSpec
  rw [h]
  by_cases hgc : isGCLifecycle v.tag
  · simp only [hgc, if_true]
    cases v.tag <;> decide
  · simp only [hgc, if_false, Bool.false_eq_true]
    unfold formatValue
    by_cases hm : v.malformed
    · simp only [hm, if_true]
      decide
    · simp only [hm, if_false, Bool.false_eq_true]
      have hl := modeLabel_length_pos m
      simp only [String.length_append]
      omega

theorem renderSpec_gc_eq (m : Mode) (mem : Mem) (x : SEXP) (v : RValue)
    (h : deref mem x = some v) (hgc : isGCLifecycle v.tag = true) :
    renderSpec m mem x = gcTransientDiag v.tag := by
  unfold renderSpec
  rw [h]
  simp only [hgc, if_true]

/-- Claim C1: for every renderer and every handle, the null handle
included, each exported shim operation returns exactly the result of its
corresponding renderer function on that handle — `ark_print` returns
`ark_print_rs(x)`, `ark_inspect` returns `ark_inspect_rs(x)`, and
`ark_display_value` returns `ark_display_value_rs(x)` — so the shim
validates, transforms and retains nothing. -/
theorem shim_pure_passthrough (R : Renderer) (x : SEXP) :
    ark_print R x = R.ark_print_rs x ∧
    ark_inspect R x = R.ark_inspect_rs x ∧
    ark_display_value R x = R.ark_display_value_rs x :=
  ⟨rfl, rfl, rfl⟩

/-- Claim C2: the type-tag enumeration assigns exactly the fixed
non-sequential discriminants 0-10, 13-25, 30, 31 and 99 to its kinds, in
source order, with every kind listed, no discriminant repeated, and the
values 11, 12 and 26-29 left as gaps. -/
theorem sexptype_tags_exact :
    allSEXPTYPEs.map SEXPTYPE.toTag =
      [0, 1, 2, 3, 4, 5, 6, 7, 8, 9, 10, 13, 14, 15, 16, 17, 18, 19, 20,
       21, 22, 23, 24, 25, 30, 31, 99] ∧
    (∀ t : SEXPTYPE, t ∈ allSEXPTYPEs) ∧
    (allSEXPTYPEs.map SEXPTYPE.toTag).Nodup ∧
    (∀ t : SEXPTYPE, SEXPTYPE.toTag t ∉ ([11, 12, 26, 27, 28, 29] : List Nat)) := by
  refine ⟨rfl, ?_, by decide, ?_⟩
  · intro t; cases t <;> decide
  · intro t; cases t <;> decide

/-- Claim C3, counterexample: the shim does not export symbols named
`print`, `inspect` and `display`; none of those three names is among the
exported symbols of `debug.c`. -/
theorem exported_symbols_not_bare_names :
    exportedSymbols ≠ ["print", "inspect", "display"] ∧
    "print" ∉ exportedSymbols ∧
    "inspect" ∉ exportedSymbols ∧
    "display" ∉ exportedSymbols := by
  decide

/-- Claim C3, amended: the shim exports exactly three distinct symbols,
named `ark_print`, `ark_inspect` and `ark_display_value`, and a debugger
locates each operation by that exact symbol name. -/
theorem exported_symbols_exact :
    exportedSymbols = ["ark_print", "ark_inspect", "ark_display_value"] ∧
    exportedSymbols.Nodup := by
  decide

/-- Claim C4: for every valid handle — one that dereferences to a value,
whatever its defined tag and content — each of the three exported
operations returns non-empty text; the operations are total functions into
strings, and the only internal failure (content formatting on a malformed
value) is caught and returned as text. -/
theorem ops_valid_nonempty (x : SEXP) (s : CState) (v : RValue)
    (h : deref s.mem x = some v) :
    0 < (ark_print_model x s).1.length ∧
    0 < (ark_inspect_model x s).1.length ∧
    0 < (ark_display_value_model x s).1.length ∧
    (v.malformed = true → isGCLifecycle v.tag = false →
      (ark_print_model x s).1 =
        formatFailureDiag "malformed internal structure") := by
  refine ⟨renderSpec_valid_length_pos _ _ _ _ h,
          renderSpec_valid_length_pos _ _ _ _ h,
          renderSpec_valid_length_pos _ _ _ _ h, ?_⟩
  intro hm hgc
  show renderSpec Mode.print s.mem x = _
  unfold renderSpec
  rw [h]
  simp only [hgc, if_false, Bool.false_eq_true]
  unfold formatValue
  simp only [hm, if_true]

/-- Witness for claim C4 at a concrete heap, state and handle. -/
theorem ops_valid_nonempty_witness :
    deref wState.mem (some 0) = some ⟨SEXPTYPE.NILSXP, "NULL", false⟩ ∧
    (0 < (ark_print_model (some 0) wState).1.length ∧
     0 < (ark_inspect_model (some 0) wState).1.length ∧
     0 < (ark_display_value_model (some 0) wState).1.length ∧
     ((false : Bool) = true → isGCLifecycle SEXPTYPE.NILSXP = false →
       (ark_print_model (some 0) wState).1 =
         formatFailureDiag "malformed internal structure")) :=
  ⟨rfl, ops_valid_nonempty (some 0) wState ⟨SEXPTYPE.NILSXP, "NULL", false⟩ rfl⟩

/-- Claim C5: whenever a handle dereferences to a value carrying one of the
two GC-lifecycle tags (`NEWSXP` = 30, `FREESXP` = 31), all three exported
operations return the designated transient-state diagnostic, which depends
only on the tag; the rendered text is the same whatever the value content,
so content formatting is never attempted. -/
theorem ops_gc_diag (x : SEXP) (s : CState) (v : RValue)
    (h : deref s.mem x = some v) (hgc : isGCLifecycle v.tag = true) :
    ((ark_print_model x s).1 = gcTransientDiag v.tag ∧
     (ark_inspect_model x s).1 = gcTransientDiag v.tag ∧
     (ark_display_value_model x s).1 = gcTransientDiag v.tag) ∧
    (∀ (m : Mode) (p₁ p₂ : String) (b₁ b₂ : Bool),
      renderSpec m (fun _ => some ⟨v.tag, p₁, b₁⟩) (some 0) =
        renderSpec m (fun _ => some ⟨v.tag, p₂, b₂⟩) (some 0)) := by
  refine ⟨⟨renderSpec_gc_eq _ _ _ _ h hgc, renderSpec_gc_eq _ _ _ _ h hgc,
           renderSpec_gc_eq _ _ _ _ h hgc⟩, ?_⟩
  intro m p₁ p₂ b₁ b₂
  rw [renderSpec_gc_eq m (fun _ => some ⟨v.tag, p₁, b₁⟩) (some 0)
        ⟨v.tag, p₁, b₁⟩ rfl hgc,
      renderSpec_gc_eq m (fun _ => some ⟨v.tag, p₂, b₂⟩) (some 0)
        ⟨v.tag, p₂, b₂⟩ rfl hgc]

/-- Witness for claim C5 at a concrete handle tagged `NEWSXP`. -/
theorem ops_gc_diag_witness :
    deref wStateGC.mem (some 0) = some ⟨SEXPTYPE.NEWSXP, "junk", false⟩ ∧
    isGCLifecycle SEXPTYPE.NEWSXP = true ∧
    (ark_print_model (some 0) wStateGC).1 = gcTransientDiag SEXPTYPE.NEWSXP :=
  ⟨rfl, rfl,
   (ops_gc_diag (some 0) wStateGC ⟨SEXPTYPE.NEWSXP, "junk", false⟩
      rfl rfl).1.1⟩

/-- Claim C6: for a null handle, or any handle that dereferences to
nothing (a dangling address), each of the three exported operations
returns the fixed invalid-handle diagnostic string. -/
theorem ops_invalid_diag (x : SEXP) (s : CState)
    (h : deref s.mem x = none) :
    (ark_print_model x s).1 = invalidHandleDiag ∧
    (ark_inspect_model x s).1 = invalidHandleDiag ∧
    (ark_display_value_model x s).1 = invalidHandleDiag := by
  refine ⟨?_, ?_, ?_⟩ <;>
    · show renderSpec _ s.mem x = _
      unfold renderSpec
      rw [h]

/-- Witness for claim C6 at the null handle. -/
theorem ops_invalid_diag_witness :
    deref wStateEmpty.mem (none : SEXP) = none ∧
    (ark_print_model none wStateEmpty).1 = invalidHandleDiag ∧
    (ark_inspect_model none wStateEmpty).1 = invalidHandleDiag ∧
    (ark_display_value_model none wStateEmpty).1 = invalidHandleDiag :=
  ⟨rfl, ops_invalid_diag none wStateEmpty rfl⟩

/-- Claim C7: the shim adds no effect of its own — with effects explicit,
each shim operation returns exactly the buffer pointer the renderer
returned (so it neither allocates nor frees that buffer) and leaves the
state exactly as the renderer left it; and over the modelled renderer the
full operations leave the entire global state, the heap of handles
included, unchanged. -/
theorem shim_no_side_effects :
    (∀ (R : EffRenderer) (x : SEXP) (s : CState),
      ark_print_eff R x s = R.print_rs x s ∧
      ark_inspect_eff R x s = R.inspect_rs x s ∧
      ark_display_value_eff R x s = R.display_value_rs x s) ∧
    (∀ (x : SEXP) (s : CState),
      (ark_print_model x s).2 = s ∧
      (ark_inspect_model x s).2 = s ∧
      (ark_display_value_model x s).2 = s) :=
  ⟨fun _ _ _ => ⟨rfl, rfl, rfl⟩, fun _ _ => ⟨rfl, rfl, rfl⟩⟩

/-- Claim C8: calling the same operation twice on the same handle, the
second call starting from the state the first call left behind, yields
identical text both times, for each of the three operations. -/
theorem ops_idempotent (x : SEXP) (s : CState) :
    (ark_print_model x (ark_print_model x s).2).1 = (ark_print_model x s).1 ∧
    (ark_inspect_model x (ark_inspect_model x s).2).1 =
      (ark_inspect_model x s).1 ∧
    (ark_display_value_model x (ark_display_value_model x s).2).1 =
      (ark_display_value_model x s).1 :=
  ⟨rfl, rfl, rfl⟩

/-- Claim C9: each of the three exported signatures in `debug.c` takes
exactly one parameter, of handle type `SEXP`, returns exactly one value of
type `const char*`, and is not variadic; and there are exactly three of
them. -/
theorem shim_calling_convention :
    (shimSignatures.all fun p =>
      p.2.params == [CType.SEXP_t] && (p.2.params.length == 1) &&
        p.2.ret == CType.ConstCharPtr && !p.2.variadic) = true ∧
    shimSignatures.length = 3 := by
  decide

/-- Claim C10: the shim never reads through the handle — `SEXP` points to
an incomplete struct — so each shim operation is total and all of its
dependence on the handle factors through the renderer call: whenever the
renderer gives equal answers on two handles (null or not, under possibly
different renderers), the shim gives equal answers as well. -/
theorem shim_handle_opacity (R₁ R₂ : Renderer) (x y : SEXP) :
    (R₁.ark_print_rs x = R₂.ark_print_rs y →
      ark_print R₁ x = ark_print R₂ y) ∧
    (R₁.ark_inspect_rs x = R₂.ark_inspect_rs y →
      ark_inspect R₁ x = ark_inspect R₂ y) ∧
    (R₁.ark_display_value_rs x = R₂.ark_display_value_rs y →
      ark_display_value R₁ x = ark_display_value R₂ y) :=
  ⟨fun h => h, fun h => h, fun h => h⟩

/-- Witness for claim C10: under a constant renderer the shim treats the
null handle and a non-null handle identically, for all three operations. -/
theorem shim_handle_opacity_witness :
    ark_print constRenderer none = ark_print constRenderer (some 5) ∧
    ark_inspect constRenderer none = ark_inspect constRenderer (some 5) ∧
    ark_display_value constRenderer none =
      ark_display_value constRenderer (some 5) :=
  ⟨(shim_handle_opacity constRenderer constRenderer none (some 5)).1 rfl,
   (shim_handle_opacity constRenderer constRenderer none (some 5)).2.1 rfl,
   (shim_handle_opacity constRenderer constRenderer none (some 5)).2.2 rfl⟩

end Ark
